import Mathlib

/-!
Shallow embedding of `src/tools/deploy_llm_server.py` (class `LLMServerDeployer`
and `main`), the remote LLM-server deployment orchestrator.

Modelling conventions:
* JSON values are the inductive `Json`; a parsed JSON object is an association
  list `List (String × Json)` in insertion order, as produced by Python's
  `json.load` (which keeps the last value for a duplicated key, so its output
  has pairwise-distinct keys).
* The host environment is the structure `Env`: `run` gives the outcome of a
  shell command executed through `subprocess.run` (`run_command`),
  `pythonVersion` models `subprocess.check_output([sys.executable, '--version'])`
  (`some out` on success, `none` when it raises), `writeOk`/`writeErr` model
  the `open('/tmp/ollama.service', 'w')` write in `start_ollama_service`.
* Each method is a pure function of `Env` (and the resolved configuration)
  returning the JSONL events it prints to stdout, the list of shell commands it
  executed, and its result.  Timestamps (`time.time()`) and the fixed
  `time.sleep(5)` settling delay have no observable effect on the event
  structure and carry no information, so event records omit the timestamp field.
* `subprocess.CalledProcessError` is the structure `CommandError`; Python
  exception propagation is explicit `Except` plumbing: every `try`/`except`
  block of the source becomes a `match` on the `Except` value, with the events
  printed before the raise kept in the output.
* `logging.logger` output goes to standard error (per `logging.basicConfig`),
  not to the stdout JSONL protocol stream; it is modelled as a separate list of
  `LoggerRecord`s so the two sinks stay distinguishable.
-/

/-- A JSON value, as produced by `json.load`.  Numbers are modelled as integers
(the configuration values the program reads — port numbers — are integers). -/
inductive Json where
  | null : Json
  | bool (b : Bool) : Json
  | num (n : Int) : Json
  | str (s : String) : Json
  | arr (elems : List Json) : Json
  | obj (members : List (String × Json)) : Json

/-- Rendering of a JSON value inside a Python f-string (`str(value)`).  Only
scalar values (strings, numbers) occur in the commands the claims exercise. -/
def Json.display : Json → String
  | .null => "None"
  | .bool true => "True"
  | .bool false => "False"
  | .num n => toString n
  | .str s => s
  | .arr _ => "[...]"
  | .obj _ => "{...}"

/-- A Python dict with `String` keys, in insertion order. -/
abbrev Dict := List (String × Json)

/-- Python dict lookup `d[k]`: the value of the first (on a real dict: only)
entry whose key is `k`. -/
def dictLookup (d : Dict) (k : String) : Option Json :=
  match d with
  | [] => none
  | (k0, v0) :: rest => if k0 = k then some v0 else dictLookup rest k

/-- The keys of a dict, in order. -/
def dictKeys (d : Dict) : List String :=
  d.map Prod.fst

/-- Inserting `k ↦ v` into a Python dict: if `k` is already a key its value is
replaced in place (keys of a dict are pairwise distinct), otherwise the pair
is appended at the end. -/
def dictInsert (d : Dict) (k : String) (v : Json) : Dict :=
  match d with
  | [] => [(k, v)]
  | (k0, v0) :: rest =>
      if k0 = k then (k0, v) :: rest else (k0, v0) :: dictInsert rest k v

/-- `\x7b**d, **c\x7d`: sequentially insert every pair of `c` into `d`. -/
def dictMerge (d c : Dict) : Dict :=
  c.foldl (fun acc p => dictInsert acc p.1 p.2) d

/-- The result of `subprocess.run(command, shell=True, capture_output=True,
text=True)`. -/
structure CmdResult where
  returncode : Int
  stdout : String
  stderr : String

/-- `subprocess.CalledProcessError`: raised by `subprocess.run(..., check=True)`
on a non-zero exit, carrying the command, the exit code and the captured
streams. -/
structure CommandError where
  cmd : String
  returncode : Int
  stdout : String
  stderr : String

/-- `str(e)` for a `CalledProcessError`. -/
def CommandError.toMessage (e : CommandError) : String :=
  "Command '" ++ e.cmd ++ "' returned non-zero exit status " ++
    toString e.returncode ++ "."

/-- The host environment one deployment run interacts with. -/
structure Env where
  /-- Outcome of a shell command run through `run_command`. -/
  run : String → CmdResult
  /-- `subprocess.check_output([sys.executable, '--version'], text=True)`:
  `some output` on success, `none` when it raises. -/
  pythonVersion : Option String
  /-- `str(e)` for the exception raised when `pythonVersion` is `none`. -/
  pythonErr : String
  /-- Whether writing `/tmp/ollama.service` succeeds. -/
  writeOk : Bool
  /-- `str(e)` for the `OSError` raised when `writeOk` is `false`. -/
  writeErr : String

/-- A JSONL record printed to standard output.  `progress` and `log` are
`send_progress` / `send_log`; `complete` and `error` are the terminal records
built inline in `deploy`.  (The `success` field of the terminal records is
always `true` for `complete` and `false` for `error` in the source; it is kept
explicit here.) -/
inductive Event where
  | progress (value : Int) (message : String) : Event
  | log (level : String) (message : String) : Event
  | complete (success : Bool) (message : String) (config : Dict) : Event
  | error (success : Bool) (message : String) : Event

/-- A terminal record: `type` is `complete` or `error`. -/
def Event.isTerminal : Event → Bool
  | .complete _ _ _ => true
  | .error _ _ => true
  | .progress _ _ => false
  | .log _ _ => false

/-- The `progress` values of a stream, in emission order. -/
def progressValues (evs : List Event) : List Int :=
  evs.filterMap (fun e => match e with
    | .progress v _ => some v
    | _ => none)

/-- A record written by the diagnostic `logging` logger to standard error
(`logging.basicConfig` installs a stderr handler); not part of the stdout
JSONL protocol. -/
inductive LoggerRecord where
  | warning (message : String) : LoggerRecord
  | info (message : String) : LoggerRecord

/-- What the orchestrator finds at the configuration path `self.config_path`:
the file is missing; it exists but reading/parsing it raises (unreadable, not
JSON, or not a JSON object, so that `\x7b**default_config, **config\x7d`
raises `TypeError`) with `str(e) = err`; or it parses as a JSON object with
the given members. -/
inductive FileRead where
  | missing : FileRead
  | invalid (err : String) : FileRead
  | object (members : Dict) : FileRead

/-- `default_config` of `LLMServerDeployer.load_config`. -/
def default_config : Dict :=
  [("llm_type", Json.str "ollama"),
   ("models", Json.arr [Json.str "llama2:7b"]),
   ("port", Json.num 11434),
   ("host", Json.str "0.0.0.0"),
   ("install_path", Json.str "/opt/llm"),
   ("data_path", Json.str "/opt/llm/data")]

/-- `LLMServerDeployer.load_config`: the resolved configuration, the JSONL
events printed to stdout (none — the method prints nothing), and the
diagnostic logger records (a warning when the file exists but loading it
fails). -/
def load_config (file : FileRead) : Dict × List Event × List LoggerRecord :=
  match file with
  | .missing => (default_config, [], [])
  | .invalid err =>
      (default_config, [],
       [LoggerRecord.warning
          ("Ошибка загрузки конфига: " ++ err ++ ". Используем дефолтный.")])
  | .object members => (dictMerge default_config members, [], [])

/-- `self.config['models']`, for a configuration whose `models` value is a
JSON array (the only shape the deployment flow is exercised with). -/
def cfgModels (cfg : Dict) : List String :=
  match dictLookup cfg "models" with
  | some (Json.arr elems) => elems.map Json.display
  | _ => []

/-- `self.config['host']` as rendered inside an f-string. -/
def cfgHost (cfg : Dict) : String :=
  match dictLookup cfg "host" with
  | some v => v.display
  | none => ""

/-- `self.config['port']` as rendered inside an f-string. -/
def cfgPort (cfg : Dict) : String :=
  match dictLookup cfg "port" with
  | some v => v.display
  | none => ""

/-- `LLMServerDeployer.run_command`: logs the invocation, runs the command,
on success logs non-empty captured streams and returns the result; with
`check = true` a non-zero exit raises `CalledProcessError` (logged as an
error, then re-raised), skipping the stream logs. -/
def run_command (env : Env) (command : String) (check : Bool) :
    List Event × List String × Except CommandError CmdResult :=
  let invocation := Event.log "info" ("Выполнение команды: " ++ command)
  let r := env.run command
  if check && r.returncode != 0 then
    let e : CommandError := ⟨command, r.returncode, r.stdout, r.stderr⟩
    let msg := e.toMessage
    ([invocation, Event.log "error" ("Ошибка выполнения команды: " ++ msg)],
     [command], Except.error e)
  else
    ([invocation]
       ++ (if r.stdout != "" then [Event.log "info" ("STDOUT: " ++ r.stdout)] else [])
       ++ (if r.stderr != "" then [Event.log "warn" ("STDERR: " ++ r.stderr)] else []),
     [command], Except.ok r)


/-- Run a straight-line sequence of `run_command(c)` calls (`check=True`),
stopping at the first raise, as the `try` bodies of the source do. -/
def runSeq (env : Env) : List String → List Event × List String × Except CommandError Unit
  | [] => ([], [], Except.ok ())
  | c :: cs =>
    let rc := run_command env c true
    match rc.2.2 with
    | Except.error e => (rc.1, rc.2.1, Except.error e)
    | Except.ok _ =>
        let rest := runSeq env cs
        (rc.1 ++ rest.1, rc.2.1 ++ rest.2.1, rest.2.2)

/-- `LLMServerDeployer.check_system_requirements`: progress 5, check the
Python interpreter, check `curl` (attempting an apt install when the check
raises); returns whether the requirements are met. -/
def check_system_requirements (env : Env) : List Event × List String × Bool :=
  let p := [Event.progress 5 "Проверка системных требований"]
  match env.pythonVersion with
  | none =>
      (p ++ [Event.log "error" ("Python не найден: " ++ env.pythonErr)], [], false)
  | some out =>
    let pyLog := [Event.log "info" ("Python версия: " ++ out.trim)]
    let rc1 := run_command env "curl --version" true
    match rc1.2.2 with
    | Except.ok _ =>
        (p ++ pyLog ++ rc1.1 ++ [Event.log "info" "curl доступен"], rc1.2.1, true)
    | Except.error _ =>
        let warn := [Event.log "warn" "curl не найден, попытка установки"]
        let rc2 := run_command env "sudo apt-get update && sudo apt-get install -y curl" true
        match rc2.2.2 with
        | Except.ok _ =>
            (p ++ pyLog ++ rc1.1 ++ warn ++ rc2.1, rc1.2.1 ++ rc2.2.1, true)
        | Except.error e =>
            let msg := e.toMessage
            (p ++ pyLog ++ rc1.1 ++ warn ++ rc2.1
               ++ [Event.log "error" ("Не удалось установить curl: " ++ msg)],
             rc1.2.1 ++ rc2.2.1, false)

/-- The vendor install command of `install_ollama`. -/
def installScriptCmd : String :=
  "curl -fsSL https://ollama.ai/install.sh | sh"

/-- `LLMServerDeployer.install_ollama`: progress 20; if `ollama --version`
(run with `check=False`) exits 0 the install is skipped and reported as
success; otherwise the vendor install script runs and the binary is
re-verified. -/
def install_ollama (env : Env) : List Event × List String × Bool :=
  let p := [Event.progress 20 "Установка Ollama"]
  let rc1 := run_command env "ollama --version" false
  match rc1.2.2 with
  | Except.error e =>
      let msg := e.toMessage
      (p ++ rc1.1 ++ [Event.log "error" ("Ошибка установки Ollama: " ++ msg)],
       rc1.2.1, false)
  | Except.ok result =>
    if result.returncode == 0 then
      (p ++ rc1.1 ++ [Event.log "info" "Ollama уже установлен"], rc1.2.1, true)
    else
      let dl := [Event.log "info" "Загрузка и установка Ollama"]
      let rc2 := run_command env installScriptCmd true
      match rc2.2.2 with
      | Except.error e =>
          let msg := e.toMessage
          (p ++ rc1.1 ++ dl ++ rc2.1
             ++ [Event.log "error" ("Ошибка установки Ollama: " ++ msg)],
           rc1.2.1 ++ rc2.2.1, false)
      | Except.ok _ =>
        let rc3 := run_command env "ollama --version" true
        match rc3.2.2 with
        | Except.error e =>
            let msg := e.toMessage
            (p ++ rc1.1 ++ dl ++ rc2.1 ++ rc3.1
               ++ [Event.log "error" ("Ошибка установки Ollama: " ++ msg)],
             rc1.2.1 ++ rc2.2.1 ++ rc3.2.1, false)
        | Except.ok _ =>
            (p ++ rc1.1 ++ dl ++ rc2.1 ++ rc3.1
               ++ [Event.log "info" "Ollama успешно установлен"],
             rc1.2.1 ++ rc2.2.1 ++ rc3.2.1, true)

/-- The `systemd` commands `start_ollama_service` issues after writing the
unit file. -/
def serviceCmds : List String :=
  ["sudo mv /tmp/ollama.service /etc/systemd/system/",
   "sudo systemctl daemon-reload",
   "sudo systemctl enable ollama",
   "sudo systemctl start ollama",
   "sudo systemctl status ollama"]

/-- The `systemd` unit descriptor `service_content` written to
`/tmp/ollama.service`, parameterized by the configured host and port. -/
def serviceUnitContent (cfg : Dict) : String :=
  "[Unit]\nDescription=Ollama Server\nAfter=network-online.target\n\n" ++
  "[Service]\nExecStart=/usr/local/bin/ollama serve\nUser=ollama\nGroup=ollama\n" ++
  "Restart=always\nRestartSec=3\n" ++
  "Environment=\"OLLAMA_HOST=" ++ cfgHost cfg ++ ":" ++ cfgPort cfg ++ "\"\n\n" ++
  "[Install]\nWantedBy=default.target\n"

/-- `LLMServerDeployer.start_ollama_service`: progress 40; create the service
account (`check=False`, tolerating failure), write the unit file (content
`serviceUnitContent`, success per `Env.writeOk`), register, enable, start and
status-check the service.  The `time.sleep(5)` settling delay before the
status check has no observable effect on the event stream. -/
def start_ollama_service (env : Env) (cfg : Dict) : List Event × List String × Bool :=
  let _content := serviceUnitContent cfg
  let p := [Event.progress 40 "Запуск сервиса Ollama",
            Event.log "info" "Запуск Ollama сервера"]
  let rc1 := run_command env "sudo useradd -r -s /bin/false -m -d /usr/share/ollama ollama" false
  match rc1.2.2 with
  | Except.error e =>
      let msg := e.toMessage
      (p ++ rc1.1 ++ [Event.log "error" ("Ошибка запуска Ollama: " ++ msg)],
       rc1.2.1, false)
  | Except.ok _ =>
    if env.writeOk then
      let rest := runSeq env serviceCmds
      match rest.2.2 with
      | Except.error e =>
          let msg := e.toMessage
          (p ++ rc1.1 ++ rest.1 ++ [Event.log "error" ("Ошибка запуска Ollama: " ++ msg)],
           rc1.2.1 ++ rest.2.1, false)
      | Except.ok _ =>
          (p ++ rc1.1 ++ rest.1 ++ [Event.log "info" "Ollama сервис запущен"],
           rc1.2.1 ++ rest.2.1, true)
    else
      (p ++ rc1.1 ++ [Event.log "error" ("Ошибка запуска Ollama: " ++ env.writeErr)],
       rc1.2.1, false)

/-- The pull command for one model. -/
def pullCmd (model : String) : String :=
  "ollama pull " ++ model

/-- The per-model progress value `int(60 + 30 * (i + 1) / n)` for the model at
index `i` of a list of `n` models.  The Python expression divides in floating
point and truncates with `int(...)`; for a positive value `60 + 30*(i+1)/n`
whose exact value lies within `[60, 90]` this equals `60 + ⌊30*(i+1)/n⌋`,
which natural division computes. -/
def modelProgress (n i : Nat) : Int :=
  ((60 + 30 * (i + 1) / n : Nat) : Int)

/-- The `for i, model in enumerate(self.config['models'])` loop of
`download_models`: `n` is `len(self.config['models'])`, `i` the index of the
first model of the remaining list.  Stops at the first failed pull (the
`except` inside the loop body returns `False`). -/
def downloadLoop (env : Env) (n : Nat) : Nat → List String → List Event × List String × Bool
  | _, [] => ([], [], true)
  | i, model :: rest =>
    let pm := [Event.progress (modelProgress n i) ("Загрузка модели " ++ model),
               Event.log "info" ("Загрузка модели: " ++ model)]
    let rc := run_command env (pullCmd model) true
    match rc.2.2 with
    | Except.error e =>
        let msg := e.toMessage
        (pm ++ rc.1
           ++ [Event.log "error" ("Ошибка загрузки модели " ++ model ++ ": " ++ msg)],
         rc.2.1, false)
    | Except.ok _ =>
        let next := downloadLoop env n (i + 1) rest
        (pm ++ rc.1 ++ [Event.log "info" ("Модель " ++ model ++ " загружена")] ++ next.1,
         rc.2.1 ++ next.2.1, next.2.2)

/-- `LLMServerDeployer.download_models`: progress 60, then pull each
configured model in order, failing fast on the first error. -/
def download_models (env : Env) (cfg : Dict) : List Event × List String × Bool :=
  let models := cfgModels cfg
  let body := downloadLoop env models.length 0 models
  ([Event.progress 60 "Загрузка моделей LLM"] ++ body.1, body.2.1, body.2.2)

/-- `LLMServerDeployer.verify_installation`: progress 95, health-check the
API endpoint, list the installed models. -/
def verify_installation (env : Env) (cfg : Dict) : List Event × List String × Bool :=
  let p := [Event.progress 95 "Проверка установки"]
  let rc1 := run_command env ("curl -f http://localhost:" ++ cfgPort cfg ++ "/api/tags") true
  match rc1.2.2 with
  | Except.error e =>
      let msg := e.toMessage
      (p ++ rc1.1 ++ [Event.log "error" ("Ошибка проверки установки: " ++ msg)],
       rc1.2.1, false)
  | Except.ok _ =>
    let rc2 := run_command env "ollama list" true
    match rc2.2.2 with
    | Except.error e =>
        let msg := e.toMessage
        (p ++ rc1.1 ++ rc2.1 ++ [Event.log "error" ("Ошибка проверки установки: " ++ msg)],
         rc1.2.1 ++ rc2.2.1, false)
    | Except.ok result =>
        (p ++ rc1.1 ++ rc2.1
           ++ [Event.log "info" ("Установленные модели:\n" ++ result.stdout),
               Event.log "info" "Установка успешно завершена"],
         rc1.2.1 ++ rc2.2.1, true)

/-- `LLMServerDeployer.deploy`: the orchestrator.  Runs the five stages in
sequence; the first stage reporting failure raises `Exception(...)`, caught at
the top level, which prints one terminal `error` record and exits with status
1 (`sys.exit(1)`); full success prints progress 100 and one terminal
`complete` record echoing the resolved configuration, and the process exits
with status 0 (`main` returns normally).  Returns (stdout events, executed
commands, exit status). -/
def deploy (env : Env) (cfg : Dict) : List Event × List String × Nat :=
  let start := [Event.progress 0 "Начало развертывания LLM сервера"]
  let s1 := check_system_requirements env
  if s1.2.2 = false then
    (start ++ s1.1 ++ [Event.error false "Системные требования не выполнены"], s1.2.1, 1)
  else
  let s2 := install_ollama env
  if s2.2.2 = false then
    (start ++ s1.1 ++ s2.1 ++ [Event.error false "Ошибка установки Ollama"],
     s1.2.1 ++ s2.2.1, 1)
  else
  let s3 := start_ollama_service env cfg
  if s3.2.2 = false then
    (start ++ s1.1 ++ s2.1 ++ s3.1 ++ [Event.error false "Ошибка запуска сервиса"],
     s1.2.1 ++ s2.2.1 ++ s3.2.1, 1)
  else
  let s4 := download_models env cfg
  if s4.2.2 = false then
    (start ++ s1.1 ++ s2.1 ++ s3.1 ++ s4.1 ++ [Event.error false "Ошибка загрузки моделей"],
     s1.2.1 ++ s2.2.1 ++ s3.2.1 ++ s4.2.1, 1)
  else
  let s5 := verify_installation env cfg
  if s5.2.2 = false then
    (start ++ s1.1 ++ s2.1 ++ s3.1 ++ s4.1 ++ s5.1
       ++ [Event.error false "Ошибка проверки установки"],
     s1.2.1 ++ s2.2.1 ++ s3.2.1 ++ s4.2.1 ++ s5.2.1, 1)
  else
    (start ++ s1.1 ++ s2.1 ++ s3.1 ++ s4.1 ++ s5.1
       ++ [Event.progress 100 "Развертывание завершено успешно",
           Event.complete true "LLM сервер успешно развернут" cfg],
     s1.2.1 ++ s2.2.1 ++ s3.2.1 ++ s4.2.1 ++ s5.2.1, 0)

/-- Conjunction of the five stage outcomes (each stage is a pure function of
the environment and the configuration, so this is well-defined independently
of `deploy` itself). -/
def stagesOk (env : Env) (cfg : Dict) : Bool :=
  (check_system_requirements env).2.2 && (install_ollama env).2.2 &&
  (start_ollama_service env cfg).2.2 && (download_models env cfg).2.2 &&
  (verify_installation env cfg).2.2

/-- `main`: resolve the configuration from the (possibly defaulted) config
path and run `deploy`.  Returns (stdout events, executed commands, exit
status, stderr logger records). -/
def mainRun (env : Env) (file : FileRead) :
    List Event × List String × Nat × List LoggerRecord :=
  let loaded := load_config file
  let d := deploy env loaded.1
  (loaded.2.1 ++ d.1, d.2.1, d.2.2, loaded.2.2)

/-! ### Basic facts about events and `run_command` -/

@[simp] theorem isTerminal_progress (v : Int) (m : String) :
    (Event.progress v m).isTerminal = false := rfl

@[simp] theorem isTerminal_log (l m : String) :
    (Event.log l m).isTerminal = false := rfl

@[simp] theorem isTerminal_complete (s : Bool) (m : String) (c : Dict) :
    (Event.complete s m c).isTerminal = true := rfl

@[simp] theorem isTerminal_error (s : Bool) (m : String) :
    (Event.error s m).isTerminal = true := rfl

/-- A stream of only non-terminal (progress/log) records. -/
def nonTerm (evs : List Event) : Bool :=
  evs.all (fun e => !e.isTerminal)

@[simp] theorem nonTerm_nil : nonTerm [] = true := rfl

@[simp] theorem nonTerm_cons (e : Event) (evs : List Event) :
    nonTerm (e :: evs) = (!e.isTerminal && nonTerm evs) := by
  simp [nonTerm]

@[simp] theorem nonTerm_append (l1 l2 : List Event) :
    nonTerm (l1 ++ l2) = (nonTerm l1 && nonTerm l2) := by
  simp [nonTerm, List.all_append]

@[simp] theorem progressValues_nil : progressValues [] = [] := rfl

@[simp] theorem progressValues_cons_progress (v : Int) (m : String) (evs : List Event) :
    progressValues (Event.progress v m :: evs) = v :: progressValues evs := rfl

@[simp] theorem progressValues_cons_log (l m : String) (evs : List Event) :
    progressValues (Event.log l m :: evs) = progressValues evs := rfl

@[simp] theorem progressValues_cons_complete (s : Bool) (m : String) (c : Dict) (evs : List Event) :
    progressValues (Event.complete s m c :: evs) = progressValues evs := rfl

@[simp] theorem progressValues_cons_error (s : Bool) (m : String) (evs : List Event) :
    progressValues (Event.error s m :: evs) = progressValues evs := rfl

@[simp] theorem progressValues_append (l1 l2 : List Event) :
    progressValues (l1 ++ l2) = progressValues l1 ++ progressValues l2 := by
  simp [progressValues, List.filterMap_append]

@[simp] theorem nonTerm_run_command (env : Env) (c : String) (ch : Bool) :
    nonTerm (run_command env c ch).1 = true := by
  unfold run_command
  dsimp only
  split
  · simp
  · split <;> split <;> simp

@[simp] theorem progressValues_run_command (env : Env) (c : String) (ch : Bool) :
    progressValues (run_command env c ch).1 = [] := by
  unfold run_command
  dsimp only
  split
  · simp
  · split <;> split <;> simp

@[simp] theorem run_command_cmds (env : Env) (c : String) (ch : Bool) :
    (run_command env c ch).2.1 = [c] := by
  unfold run_command
  dsimp only
  split <;> rfl

theorem run_command_ok (env : Env) (c : String) (ch : Bool)
    (h : ch = false ∨ (env.run c).returncode = 0) :
    (run_command env c ch).2.2 = Except.ok (env.run c) := by
  unfold run_command
  rcases h with h | h <;> simp [h]

theorem run_command_err (env : Env) (c : String)
    (h : (env.run c).returncode ≠ 0) :
    (run_command env c true).2.2 = Except.error
      ⟨c, (env.run c).returncode, (env.run c).stdout, (env.run c).stderr⟩ := by
  unfold run_command
  simp [h]

/-! ### Per-stage stream facts: every stage emits only progress/log records,
and each stage's progress milestones are fixed. -/

@[simp] theorem nonTerm_runSeq (env : Env) (cs : List String) :
    nonTerm (runSeq env cs).1 = true := by
  induction cs with
  | nil => rfl
  | cons c cs ih =>
      unfold runSeq
      dsimp only
      split <;> simp [ih]

@[simp] theorem progressValues_runSeq (env : Env) (cs : List String) :
    progressValues (runSeq env cs).1 = [] := by
  induction cs with
  | nil => rfl
  | cons c cs ih =>
      unfold runSeq
      dsimp only
      split <;> simp [ih]

@[simp] theorem nonTerm_check_system_requirements (env : Env) :
    nonTerm (check_system_requirements env).1 = true := by
  unfold check_system_requirements
  dsimp only
  split
  · simp
  · split
    · simp
    · split <;> simp

@[simp] theorem progressValues_check_system_requirements (env : Env) :
    progressValues (check_system_requirements env).1 = [5] := by
  unfold check_system_requirements
  dsimp only
  split
  · simp
  · split
    · simp
    · split <;> simp

@[simp] theorem nonTerm_install_ollama (env : Env) :
    nonTerm (install_ollama env).1 = true := by
  unfold install_ollama
  dsimp only
  split
  · simp
  · split
    · simp
    · split
      · simp
      · split <;> simp

@[simp] theorem progressValues_install_ollama (env : Env) :
    progressValues (install_ollama env).1 = [20] := by
  unfold install_ollama
  dsimp only
  split
  · simp
  · split
    · simp
    · split
      · simp
      · split <;> simp

@[simp] theorem nonTerm_start_ollama_service (env : Env) (cfg : Dict) :
    nonTerm (start_ollama_service env cfg).1 = true := by
  unfold start_ollama_service
  dsimp only
  split
  · simp
  · split
    · split <;> simp
    · simp

@[simp] theorem progressValues_start_ollama_service (env : Env) (cfg : Dict) :
    progressValues (start_ollama_service env cfg).1 = [40] := by
  unfold start_ollama_service
  dsimp only
  split
  · simp
  · split
    · split <;> simp
    · simp

@[simp] theorem nonTerm_downloadLoop (env : Env) (n : Nat) (i : Nat) (ms : List String) :
    nonTerm (downloadLoop env n i ms).1 = true := by
  induction ms generalizing i with
  | nil => rfl
  | cons m ms ih =>
      unfold downloadLoop
      dsimp only
      split <;> simp [ih]

@[simp] theorem nonTerm_download_models (env : Env) (cfg : Dict) :
    nonTerm (download_models env cfg).1 = true := by
  unfold download_models
  simp

@[simp] theorem nonTerm_verify_installation (env : Env) (cfg : Dict) :
    nonTerm (verify_installation env cfg).1 = true := by
  unfold verify_installation
  dsimp only
  split
  · simp
  · split <;> simp

@[simp] theorem progressValues_verify_installation (env : Env) (cfg : Dict) :
    progressValues (verify_installation env cfg).1 = [95] := by
  unfold verify_installation
  dsimp only
  split
  · simp
  · split <;> simp

/-! ### The download loop: progress values, success, and fail-fast shape -/

theorem progressValues_downloadLoop_ok (env : Env) (n : Nat) (ms : List String) (i : Nat)
    (h : (downloadLoop env n i ms).2.2 = true) :
    progressValues (downloadLoop env n i ms).1 =
      (List.range ms.length).map (fun j => modelProgress n (i + j)) := by
  induction ms generalizing i with
  | nil => simp [downloadLoop]
  | cons m ms ih =>
      unfold downloadLoop at h ⊢
      dsimp only at h ⊢
      rcases hr : (run_command env (pullCmd m) true).2.2 with e | v
      · rw [hr] at h; simp at h
      · rw [hr] at h
        dsimp only at h ⊢
        simp only [progressValues_append, progressValues_run_command,
          progressValues_cons_progress, progressValues_cons_log, progressValues_nil,
          List.append_nil, List.nil_append]
        rw [ih (i + 1) h]
        rw [List.length_cons, List.range_succ_eq_map, List.map_cons, List.map_map]
        simp only [List.singleton_append]
        congr 1
        refine List.map_congr_left (fun j _ => ?_)
        simp only [Function.comp_apply]
        exact congrArg (modelProgress n) (by omega)

theorem downloadLoop_ok (env : Env) (n : Nat) (ms : List String) (i : Nat)
    (hrun : ∀ c, (env.run c).returncode = 0) :
    (downloadLoop env n i ms).2.2 = true := by
  induction ms generalizing i with
  | nil => rfl
  | cons m ms ih =>
      unfold downloadLoop
      dsimp only
      rw [run_command_ok env (pullCmd m) true (Or.inr (hrun _))]
      exact ih (i + 1)

theorem downloadLoop_fail (env : Env) (n : Nat) (ms : List String) (i k : Nat)
    (hi : i < ms.length)
    (hfail : (env.run (pullCmd (ms.get ⟨i, hi⟩))).returncode ≠ 0)
    (hok : ∀ j (hj : j < i), (env.run (pullCmd (ms.get ⟨j, Nat.lt_trans hj hi⟩))).returncode = 0) :
    (downloadLoop env n k ms).2.2 = false ∧
    (downloadLoop env n k ms).2.1 = (ms.take (i + 1)).map pullCmd := by
  induction ms generalizing i k with
  | nil => exact absurd hi (Nat.not_lt_zero i)
  | cons m ms ih =>
      cases i with
      | zero =>
          have hrc := run_command_err env (pullCmd m) hfail
          unfold downloadLoop
          dsimp only
          rw [hrc]
          simp
      | succ j =>
          have h0 : (env.run (pullCmd m)).returncode = 0 := hok 0 (Nat.succ_pos j)
          have hrc := run_command_ok env (pullCmd m) true (Or.inr h0)
          unfold downloadLoop
          dsimp only
          rw [hrc]
          dsimp only
          have hj : j < ms.length := Nat.lt_of_succ_lt_succ hi
          have hrec := ih j (k + 1) hj hfail
            (fun j2 hj2 => hok (j2 + 1) (Nat.succ_lt_succ hj2))
          simp [hrec.1, hrec.2]

/-! ### Stage success under a fully cooperative host -/

theorem runSeq_ok (env : Env) (cs : List String)
    (hrun : ∀ c, (env.run c).returncode = 0) :
    (runSeq env cs).2.2 = Except.ok () := by
  induction cs with
  | nil => rfl
  | cons c cs ih =>
      unfold runSeq
      dsimp only
      rw [run_command_ok env c true (Or.inr (hrun _))]
      exact ih

theorem check_system_requirements_ok (env : Env) (out : String)
    (hpy : env.pythonVersion = some out)
    (hrun : ∀ c, (env.run c).returncode = 0) :
    (check_system_requirements env).2.2 = true := by
  unfold check_system_requirements
  rw [hpy]
  dsimp only
  rw [run_command_ok env "curl --version" true (Or.inr (hrun _))]

theorem install_ollama_ok (env : Env)
    (hver : (env.run "ollama --version").returncode = 0) :
    (install_ollama env).2.2 = true := by
  unfold install_ollama
  dsimp only
  rw [run_command_ok env "ollama --version" false (Or.inl rfl)]
  dsimp only
  simp [hver]

theorem start_ollama_service_ok (env : Env) (cfg : Dict)
    (hw : env.writeOk = true)
    (hrun : ∀ c, (env.run c).returncode = 0) :
    (start_ollama_service env cfg).2.2 = true := by
  unfold start_ollama_service
  dsimp only
  rw [run_command_ok env "sudo useradd -r -s /bin/false -m -d /usr/share/ollama ollama" false
    (Or.inl rfl)]
  dsimp only
  simp only [hw, if_true]
  rw [runSeq_ok env serviceCmds hrun]

theorem download_models_ok (env : Env) (cfg : Dict)
    (hrun : ∀ c, (env.run c).returncode = 0) :
    (download_models env cfg).2.2 = true := by
  unfold download_models
  exact downloadLoop_ok env _ _ 0 hrun

theorem verify_installation_ok (env : Env) (cfg : Dict)
    (hrun : ∀ c, (env.run c).returncode = 0) :
    (verify_installation env cfg).2.2 = true := by
  unfold verify_installation
  dsimp only
  rw [run_command_ok env ("curl -f http://localhost:" ++ cfgPort cfg ++ "/api/tags") true
    (Or.inr (hrun _))]
  dsimp only
  rw [run_command_ok env "ollama list" true (Or.inr (hrun _))]

/-! ### Characterizations of `deploy` -/

theorem deploy_eq_of_ok (env : Env) (cfg : Dict)
    (h1 : (check_system_requirements env).2.2 = true)
    (h2 : (install_ollama env).2.2 = true)
    (h3 : (start_ollama_service env cfg).2.2 = true)
    (h4 : (download_models env cfg).2.2 = true)
    (h5 : (verify_installation env cfg).2.2 = true) :
    deploy env cfg =
      ([Event.progress 0 "Начало развертывания LLM сервера"]
         ++ (check_system_requirements env).1 ++ (install_ollama env).1
         ++ (start_ollama_service env cfg).1 ++ (download_models env cfg).1
         ++ (verify_installation env cfg).1
         ++ [Event.progress 100 "Развертывание завершено успешно",
             Event.complete true "LLM сервер успешно развернут" cfg],
       (check_system_requirements env).2.1 ++ (install_ollama env).2.1
         ++ (start_ollama_service env cfg).2.1 ++ (download_models env cfg).2.1
         ++ (verify_installation env cfg).2.1, 0) := by
  unfold deploy
  simp [h1, h2, h3, h4, h5]

theorem getLast?_eq_of_concat {α : Type} {l pre : List α} {a : α}
    (h : l = pre ++ [a]) : l.getLast? = some a := by
  subst h
  rw [List.getLast?_append_cons]
  rfl

/-! ### The shallow configuration overlay `\x7b**default_config, **config\x7d` -/

theorem dictLookup_dictInsert (d : Dict) (k : String) (v : Json) (q : String) :
    dictLookup (dictInsert d k v) q = if q = k then some v else dictLookup d q := by
  induction d with
  | nil =>
      by_cases hq : q = k
      · subst hq; simp [dictInsert, dictLookup]
      · have hq2 : ¬ k = q := fun h => hq h.symm
        simp [dictInsert, dictLookup, hq, hq2]
  | cons p rest ih =>
      obtain ⟨k0, v0⟩ := p
      by_cases h0 : k0 = k
      · subst h0
        by_cases hq : q = k0
        · subst hq; simp [dictInsert, dictLookup]
        · have hq2 : ¬ k0 = q := fun h => hq h.symm
          simp [dictInsert, dictLookup, hq, hq2]
      · by_cases hq : k0 = q
        · subst hq
          simp [dictInsert, dictLookup, h0]
        · simp [dictInsert, dictLookup, h0, hq, ih]

theorem dictLookup_dictMerge (d c : Dict) (hc : (dictKeys c).Nodup) (k : String) :
    dictLookup (dictMerge d c) k =
      if k ∈ dictKeys c then dictLookup c k else dictLookup d k := by
  induction c generalizing d with
  | nil => simp [dictMerge, dictKeys, dictLookup]
  | cons p rest ih =>
      obtain ⟨k0, v0⟩ := p
      have hc' : (k0 :: List.map Prod.fst rest).Nodup := hc
      have hpair := List.nodup_cons.mp hc'
      have hnd : (dictKeys rest).Nodup := hpair.2
      rw [show dictMerge d ((k0, v0) :: rest) = dictMerge (dictInsert d k0 v0) rest from rfl,
          ih (dictInsert d k0 v0) hnd]
      by_cases hmem : k ∈ dictKeys rest
      · have h1 : k ∈ dictKeys ((k0, v0) :: rest) := List.mem_cons.mpr (Or.inr hmem)
        have hne : ¬ k0 = k := fun h => hpair.1 (h ▸ hmem)
        rw [if_pos hmem, if_pos h1]
        simp [dictLookup, hne]
      · by_cases hk : k = k0
        · subst hk
          have h1 : k ∈ dictKeys ((k, v0) :: rest) := List.mem_cons.mpr (Or.inl rfl)
          rw [if_neg hmem, if_pos h1, dictLookup_dictInsert]
          simp [dictLookup]
        · have h1 : k ∉ dictKeys ((k0, v0) :: rest) := by
            intro hcon
            rcases List.mem_cons.mp hcon with h | h
            · exact hk h
            · exact hmem h
          rw [if_neg hmem, if_neg h1, dictLookup_dictInsert, if_neg hk]

theorem dictLookup_eq_of_mem (c : Dict) (hc : (dictKeys c).Nodup)
    (k : String) (v : Json) (hm : (k, v) ∈ c) :
    dictLookup c k = some v := by
  induction c with
  | nil => cases hm
  | cons p rest ih =>
      have hc' : (p.1 :: List.map Prod.fst rest).Nodup := hc
      have hpair := List.nodup_cons.mp hc'
      have hnd : (dictKeys rest).Nodup := hpair.2
      rcases List.mem_cons.mp hm with heq | hm2
      · subst heq; simp [dictLookup]
      · obtain ⟨k0, v0⟩ := p
        have hkmem : k ∈ List.map Prod.fst rest := List.mem_map_of_mem Prod.fst hm2
        have hne : ¬ k0 = k := fun h => hpair.1 (h ▸ hkmem)
        simp only [dictLookup, if_neg hne]
        exact ih hnd hm2

/-! ### Failure-shape characterizations of `deploy`, one per stage -/

theorem nonTerm_iff (evs : List Event) :
    nonTerm evs = true ↔ ∀ e ∈ evs, e.isTerminal = false := by
  simp [nonTerm, List.all_eq_true]

theorem deploy_eq_fail1 (env : Env) (cfg : Dict)
    (h1 : (check_system_requirements env).2.2 = false) :
    deploy env cfg =
      ([Event.progress 0 "Начало развертывания LLM сервера"]
         ++ (check_system_requirements env).1
         ++ [Event.error false "Системные требования не выполнены"],
       (check_system_requirements env).2.1, 1) := by
  unfold deploy
  simp [h1]

theorem deploy_eq_fail2 (env : Env) (cfg : Dict)
    (h1 : (check_system_requirements env).2.2 = true)
    (h2 : (install_ollama env).2.2 = false) :
    deploy env cfg =
      ([Event.progress 0 "Начало развертывания LLM сервера"]
         ++ (check_system_requirements env).1 ++ (install_ollama env).1
         ++ [Event.error false "Ошибка установки Ollama"],
       (check_system_requirements env).2.1 ++ (install_ollama env).2.1, 1) := by
  unfold deploy
  simp [h1, h2]

theorem deploy_eq_fail3 (env : Env) (cfg : Dict)
    (h1 : (check_system_requirements env).2.2 = true)
    (h2 : (install_ollama env).2.2 = true)
    (h3 : (start_ollama_service env cfg).2.2 = false) :
    deploy env cfg =
      ([Event.progress 0 "Начало развертывания LLM сервера"]
         ++ (check_system_requirements env).1 ++ (install_ollama env).1
         ++ (start_ollama_service env cfg).1
         ++ [Event.error false "Ошибка запуска сервиса"],
       (check_system_requirements env).2.1 ++ (install_ollama env).2.1
         ++ (start_ollama_service env cfg).2.1, 1) := by
  unfold deploy
  simp [h1, h2, h3]

theorem deploy_eq_fail4 (env : Env) (cfg : Dict)
    (h1 : (check_system_requirements env).2.2 = true)
    (h2 : (install_ollama env).2.2 = true)
    (h3 : (start_ollama_service env cfg).2.2 = true)
    (h4 : (download_models env cfg).2.2 = false) :
    deploy env cfg =
      ([Event.progress 0 "Начало развертывания LLM сервера"]
         ++ (check_system_requirements env).1 ++ (install_ollama env).1
         ++ (start_ollama_service env cfg).1 ++ (download_models env cfg).1
         ++ [Event.error false "Ошибка загрузки моделей"],
       (check_system_requirements env).2.1 ++ (install_ollama env).2.1
         ++ (start_ollama_service env cfg).2.1 ++ (download_models env cfg).2.1, 1) := by
  unfold deploy
  simp [h1, h2, h3, h4]

theorem deploy_eq_fail5 (env : Env) (cfg : Dict)
    (h1 : (check_system_requirements env).2.2 = true)
    (h2 : (install_ollama env).2.2 = true)
    (h3 : (start_ollama_service env cfg).2.2 = true)
    (h4 : (download_models env cfg).2.2 = true)
    (h5 : (verify_installation env cfg).2.2 = false) :
    deploy env cfg =
      ([Event.progress 0 "Начало развертывания LLM сервера"]
         ++ (check_system_requirements env).1 ++ (install_ollama env).1
         ++ (start_ollama_service env cfg).1 ++ (download_models env cfg).1
         ++ (verify_installation env cfg).1
         ++ [Event.error false "Ошибка проверки установки"],
       (check_system_requirements env).2.1 ++ (install_ollama env).2.1
         ++ (start_ollama_service env cfg).2.1 ++ (download_models env cfg).2.1
         ++ (verify_installation env cfg).2.1, 1) := by
  unfold deploy
  simp [h1, h2, h3, h4, h5]

/-! ### Concrete fixtures used by the closed witness theorems -/

/-- A fully cooperative host: every command exits 0, Python reports a
version, the unit-file write succeeds. -/
def envAllOkW : Env :=
  ⟨fun _ => ⟨0, "", ""⟩, some "Python 3.10.12\n", "", true, ""⟩

/-- A host with no Python interpreter (the version probe raises). -/
def envNoPythonW : Env :=
  ⟨fun _ => ⟨0, "", ""⟩, none, "No such file or directory", true, ""⟩

/-- A host on which every command fails with exit code 1. -/
def envCmdFailW : Env :=
  ⟨fun _ => ⟨1, "out", "err"⟩, some "Python 3.10.12\n", "", true, ""⟩

/-- A host on which exactly the pull of model `m1` fails. -/
def envPullFailW : Env :=
  ⟨fun c => if c = pullCmd "m1" then ⟨1, "", "pull failed"⟩ else ⟨0, "", ""⟩,
   some "Python 3.10.12\n", "", true, ""⟩

/-- The configuration resolved from the overlay
`\x7b"models": ["m1", "m2"], "port": 9000\x7d`. -/
def cfg2W : Dict :=
  (load_config (FileRead.object
    [("models", Json.arr [Json.str "m1", Json.str "m2"]), ("port", Json.num 9000)])).1

/-- The configuration resolved from the overlay `\x7b"models": []\x7d`. -/
def cfgEmptyModelsW : Dict :=
  (load_config (FileRead.object [("models", Json.arr [])])).1

/-! ### The claims -/

/-- C1: for every invocation of the orchestrator `deploy`, the standard-output
stream consists of zero or more progress/log records followed by exactly one
terminal record whose type is `complete` or `error`, and no record is emitted
after that terminal record. -/
theorem deploy_stream_shape (env : Env) (cfg : Dict) :
    ∃ pre t, (deploy env cfg).1 = pre ++ [t] ∧
      (∀ e ∈ pre, e.isTerminal = false) ∧ t.isTerminal = true := by
  cases hb1 : (check_system_requirements env).2.2 with
  | false =>
      exact ⟨[Event.progress 0 "Начало развертывания LLM сервера"]
          ++ (check_system_requirements env).1,
        Event.error false "Системные требования не выполнены",
        by rw [deploy_eq_fail1 env cfg hb1], (nonTerm_iff _).mp (by simp), rfl⟩
  | true =>
  cases hb2 : (install_ollama env).2.2 with
  | false =>
      exact ⟨[Event.progress 0 "Начало развертывания LLM сервера"]
          ++ (check_system_requirements env).1 ++ (install_ollama env).1,
        Event.error false "Ошибка установки Ollama",
        by rw [deploy_eq_fail2 env cfg hb1 hb2], (nonTerm_iff _).mp (by simp), rfl⟩
  | true =>
  cases hb3 : (start_ollama_service env cfg).2.2 with
  | false =>
      exact ⟨[Event.progress 0 "Начало развертывания LLM сервера"]
          ++ (check_system_requirements env).1 ++ (install_ollama env).1
          ++ (start_ollama_service env cfg).1,
        Event.error false "Ошибка запуска сервиса",
        by rw [deploy_eq_fail3 env cfg hb1 hb2 hb3], (nonTerm_iff _).mp (by simp), rfl⟩
  | true =>
  cases hb4 : (download_models env cfg).2.2 with
  | false =>
      exact ⟨[Event.progress 0 "Начало развертывания LLM сервера"]
          ++ (check_system_requirements env).1 ++ (install_ollama env).1
          ++ (start_ollama_service env cfg).1 ++ (download_models env cfg).1,
        Event.error false "Ошибка загрузки моделей",
        by rw [deploy_eq_fail4 env cfg hb1 hb2 hb3 hb4], (nonTerm_iff _).mp (by simp), rfl⟩
  | true =>
  cases hb5 : (verify_installation env cfg).2.2 with
  | false =>
      exact ⟨[Event.progress 0 "Начало развертывания LLM сервера"]
          ++ (check_system_requirements env).1 ++ (install_ollama env).1
          ++ (start_ollama_service env cfg).1 ++ (download_models env cfg).1
          ++ (verify_installation env cfg).1,
        Event.error false "Ошибка проверки установки",
        by rw [deploy_eq_fail5 env cfg hb1 hb2 hb3 hb4 hb5], (nonTerm_iff _).mp (by simp), rfl⟩
  | true =>
      refine ⟨[Event.progress 0 "Начало развертывания LLM сервера"]
          ++ (check_system_requirements env).1 ++ (install_ollama env).1
          ++ (start_ollama_service env cfg).1 ++ (download_models env cfg).1
          ++ (verify_installation env cfg).1
          ++ [Event.progress 100 "Развертывание завершено успешно"],
        Event.complete true "LLM сервер успешно развернут" cfg,
        ?_, (nonTerm_iff _).mp (by simp), rfl⟩
      rw [deploy_eq_of_ok env cfg hb1 hb2 hb3 hb4 hb5]
      simp

/-- C2: the orchestrator exits with status 0 when every stage (requirement
check, runtime install, service start, model download, verification)
succeeds, and exits with status 1 on a fatal failure at any stage, after
emitting the terminal error record. -/
theorem deploy_exit_status (env : Env) (cfg : Dict) :
    (stagesOk env cfg = true → (deploy env cfg).2.2 = 0) ∧
    (stagesOk env cfg = false → (deploy env cfg).2.2 = 1 ∧
      ∃ msg, (deploy env cfg).1.getLast? = some (Event.error false msg)) := by
  constructor
  · intro h
    simp only [stagesOk, Bool.and_eq_true] at h
    obtain ⟨⟨⟨⟨h1, h2⟩, h3⟩, h4⟩, h5⟩ := h
    rw [deploy_eq_of_ok env cfg h1 h2 h3 h4 h5]
  · intro h
    cases hb1 : (check_system_requirements env).2.2 with
    | false =>
        refine ⟨by rw [deploy_eq_fail1 env cfg hb1], "Системные требования не выполнены", ?_⟩
        exact getLast?_eq_of_concat (by rw [deploy_eq_fail1 env cfg hb1])
    | true =>
    cases hb2 : (install_ollama env).2.2 with
    | false =>
        refine ⟨by rw [deploy_eq_fail2 env cfg hb1 hb2], "Ошибка установки Ollama", ?_⟩
        exact getLast?_eq_of_concat (by rw [deploy_eq_fail2 env cfg hb1 hb2])
    | true =>
    cases hb3 : (start_ollama_service env cfg).2.2 with
    | false =>
        refine ⟨by rw [deploy_eq_fail3 env cfg hb1 hb2 hb3], "Ошибка запуска сервиса", ?_⟩
        exact getLast?_eq_of_concat (by rw [deploy_eq_fail3 env cfg hb1 hb2 hb3])
    | true =>
    cases hb4 : (download_models env cfg).2.2 with
    | false =>
        refine ⟨by rw [deploy_eq_fail4 env cfg hb1 hb2 hb3 hb4], "Ошибка загрузки моделей", ?_⟩
        exact getLast?_eq_of_concat (by rw [deploy_eq_fail4 env cfg hb1 hb2 hb3 hb4])
    | true =>
    cases hb5 : (verify_installation env cfg).2.2 with
    | false =>
        refine ⟨by rw [deploy_eq_fail5 env cfg hb1 hb2 hb3 hb4 hb5],
          "Ошибка проверки установки", ?_⟩
        exact getLast?_eq_of_concat (by rw [deploy_eq_fail5 env cfg hb1 hb2 hb3 hb4 hb5])
    | true =>
        exfalso
        rw [stagesOk, hb1, hb2, hb3, hb4, hb5] at h
        simp at h

/-- C2 witness: on a fully cooperative host the exit status is 0; on a host
without a Python interpreter the exit status is 1. -/
theorem deploy_exit_status_witness :
    (deploy envAllOkW default_config).2.2 = 0 ∧
    (deploy envNoPythonW default_config).2.2 = 1 :=
  ⟨(deploy_exit_status envAllOkW default_config).1 (by decide),
   ((deploy_exit_status envNoPythonW default_config).2 (by decide)).1⟩

/-- C3: for every configuration file that parses as a valid JSON object, the
resolved configuration equals the built-in defaults with exactly the file's
keys replaced by the file's values (shallow key overlay); keys absent from
the file keep their default values. -/
theorem load_config_overlay (c : Dict) (hc : (dictKeys c).Nodup) (k : String) :
    dictLookup (load_config (FileRead.object c)).1 k =
      if k ∈ dictKeys c then dictLookup c k else dictLookup default_config k :=
  dictLookup_dictMerge default_config c hc k

/-- C3 witness: the overlay `\x7b"port": 9000\x7d` replaces `port` and keeps
the default `host`. -/
theorem load_config_overlay_witness :
    dictLookup (load_config (FileRead.object [("port", Json.num 9000)])).1 "port" =
      some (Json.num 9000) ∧
    dictLookup (load_config (FileRead.object [("port", Json.num 9000)])).1 "host" =
      some (Json.str "0.0.0.0") := by
  constructor
  · have h := load_config_overlay [("port", Json.num 9000)] (by decide) "port"
    rw [h]; rfl
  · have h := load_config_overlay [("port", Json.num 9000)] (by decide) "host"
    rw [h]; rfl

/-- C4 counterexample: with a malformed configuration file, the config loader
emits no stdout JSONL record at all — in particular no warning-level log
record on the protocol stream; the warning goes to the stderr diagnostic
logger.  On a cooperative host the whole run then contains no warn-level log
record anywhere on stdout and still exits 0. -/
theorem load_config_malformed_counterexample :
    (load_config (FileRead.invalid "Expecting value: line 1 column 1 (char 0)")).2.1 = [] ∧
    (load_config (FileRead.invalid "Expecting value: line 1 column 1 (char 0)")).2.2 =
      [LoggerRecord.warning
        "Ошибка загрузки конфига: Expecting value: line 1 column 1 (char 0). Используем дефолтный."] ∧
    ((mainRun envAllOkW (FileRead.invalid "Expecting value: line 1 column 1 (char 0)")).1.all
      (fun e => match e with
        | Event.log level _ => !(level == "warn" || level == "warning")
        | _ => true)) = true ∧
    (mainRun envAllOkW (FileRead.invalid "Expecting value: line 1 column 1 (char 0)")).2.2.1 = 0 :=
  ⟨rfl, rfl, by decide, rfl⟩

/-- C4 amended: if the configuration file exists but is malformed, a warning
is emitted on the stderr diagnostic logger (not as a protocol LogEvent on
stdout), the built-in defaults are used, and the run proceeds exactly as a
run with the default configuration — a bad configuration file alone never
aborts the deployment. -/
theorem load_config_malformed_amended (err : String) (env : Env) :
    load_config (FileRead.invalid err) =
      (default_config, [],
       [LoggerRecord.warning
          ("Ошибка загрузки конфига: " ++ err ++ ". Используем дефолтный.")]) ∧
    (mainRun env (FileRead.invalid err)).1 = (deploy env default_config).1 ∧
    (mainRun env (FileRead.invalid err)).2.2.1 = (deploy env default_config).2.2 := by
  refine ⟨rfl, by simp [mainRun, load_config], by simp [mainRun, load_config]⟩

/-- C5: in raising mode (`check=True`) a non-zero exit makes `run_command`
raise a structured error carrying the command, the exit code and the captured
stdout/stderr streams; in non-raising mode (`check=False`) a non-zero exit
does not raise and the completed result is returned to the caller. -/
theorem run_command_error_contract (env : Env) (command : String) :
    ((env.run command).returncode ≠ 0 →
      (run_command env command true).2.2 =
        Except.error ⟨command, (env.run command).returncode,
          (env.run command).stdout, (env.run command).stderr⟩) ∧
    (run_command env command false).2.2 = Except.ok (env.run command) :=
  ⟨fun h => run_command_err env command h,
   run_command_ok env command false (Or.inl rfl)⟩

/-- C5 witness: on a host where the command exits 1, raising mode returns the
structured error and non-raising mode returns the completed result. -/
theorem run_command_error_contract_witness :
    (run_command envCmdFailW "sudo systemctl start ollama" true).2.2 =
      Except.error ⟨"sudo systemctl start ollama", 1, "out", "err"⟩ ∧
    (run_command envCmdFailW "sudo systemctl start ollama" false).2.2 =
      Except.ok ⟨1, "out", "err"⟩ :=
  ⟨(run_command_error_contract envCmdFailW "sudo systemctl start ollama").1 (by decide),
   (run_command_error_contract envCmdFailW "sudo systemctl start ollama").2⟩

/-- C6: if the runtime binary already reports a version successfully (the
version command exits 0), `install_ollama` performs no install action — the
only command it runs is the version probe, never the vendor install script —
and it still reports success. -/
theorem install_ollama_idempotent (env : Env)
    (h : (env.run "ollama --version").returncode = 0) :
    (install_ollama env).2.2 = true ∧
    (install_ollama env).2.1 = ["ollama --version"] ∧
    installScriptCmd ∉ (install_ollama env).2.1 := by
  have hok := run_command_ok env "ollama --version" false (Or.inl rfl)
  have h2 : (install_ollama env).2.1 = ["ollama --version"] := by
    unfold install_ollama
    dsimp only
    rw [hok]
    dsimp only
    simp [h]
  exact ⟨install_ollama_ok env h, h2, by rw [h2]; decide⟩

/-- C6 witness: on a host where `ollama --version` exits 0 the install stage
succeeds having executed only the version probe. -/
theorem install_ollama_idempotent_witness :
    (install_ollama envAllOkW).2.2 = true ∧
    (install_ollama envAllOkW).2.1 = ["ollama --version"] ∧
    installScriptCmd ∉ (install_ollama envAllOkW).2.1 :=
  install_ollama_idempotent envAllOkW rfl

/-- C7: if the pull of any model in the configured list fails (every earlier
pull having succeeded), no subsequent model is attempted — the commands
issued are exactly the pulls of the models up to and including the failing
one — `download_models` reports failure, and (the earlier stages having
succeeded) the run terminates with the terminal error record and exit
status 1. -/
theorem download_models_fail_fast (env : Env) (cfg : Dict) (i : Nat)
    (hi : i < (cfgModels cfg).length)
    (hfail : (env.run (pullCmd ((cfgModels cfg).get ⟨i, hi⟩))).returncode ≠ 0)
    (hok : ∀ j (hj : j < i),
      (env.run (pullCmd ((cfgModels cfg).get ⟨j, Nat.lt_trans hj hi⟩))).returncode = 0) :
    (download_models env cfg).2.2 = false ∧
    (download_models env cfg).2.1 = ((cfgModels cfg).take (i + 1)).map pullCmd ∧
    ((check_system_requirements env).2.2 = true →
     (install_ollama env).2.2 = true →
     (start_ollama_service env cfg).2.2 = true →
     (deploy env cfg).2.2 = 1 ∧
     (deploy env cfg).1.getLast? = some (Event.error false "Ошибка загрузки моделей")) := by
  have hdf := downloadLoop_fail env (cfgModels cfg).length (cfgModels cfg) i 0 hi hfail hok
  have hd1 : (download_models env cfg).2.2 = false := hdf.1
  have hd2 : (download_models env cfg).2.1 = ((cfgModels cfg).take (i + 1)).map pullCmd := hdf.2
  refine ⟨hd1, hd2, fun h1 h2 h3 => ?_⟩
  refine ⟨by rw [deploy_eq_fail4 env cfg h1 h2 h3 hd1], ?_⟩
  exact getLast?_eq_of_concat (by rw [deploy_eq_fail4 env cfg h1 h2 h3 hd1])

/-- C7 witness: with models `["m1", "m2"]` and a host where only
`ollama pull m1` fails, exactly that one pull is issued, the stage fails,
and the run exits 1. -/
theorem download_models_fail_fast_witness :
    (download_models envPullFailW cfg2W).2.2 = false ∧
    (download_models envPullFailW cfg2W).2.1 = ["ollama pull m1"] ∧
    (deploy envPullFailW cfg2W).2.2 = 1 := by
  have h := download_models_fail_fast envPullFailW cfg2W 0 (by decide) (by decide)
    (fun j hj => absurd hj (Nat.not_lt_zero j))
  exact ⟨h.1, by rw [h.2.1]; rfl, (h.2.2 (by decide) (by decide) (by decide)).1⟩

/-! ### Progress arithmetic and the fixed milestone list -/

theorem modelProgress_mono (n : Nat) {a b : Nat} (h : a ≤ b) :
    modelProgress n a ≤ modelProgress n b := by
  unfold modelProgress
  have hmul : 30 * (a + 1) ≤ 30 * (b + 1) :=
    Nat.mul_le_mul_left 30 (Nat.add_le_add_right h 1)
  have hdiv : 30 * (a + 1) / n ≤ 30 * (b + 1) / n := Nat.div_le_div_right hmul
  exact_mod_cast Nat.add_le_add_left hdiv 60

theorem modelProgress_bounds (n i : Nat) (hi : i < n) :
    60 ≤ modelProgress n i ∧ modelProgress n i ≤ 90 := by
  unfold modelProgress
  constructor
  · exact_mod_cast Nat.le_add_right 60 (30 * (i + 1) / n)
  · have hn : 0 < n := Nat.lt_of_le_of_lt (Nat.zero_le i) hi
    have hmul : 30 * (i + 1) ≤ 30 * n := Nat.mul_le_mul_left 30 (Nat.succ_le_of_lt hi)
    have hdiv : 30 * (i + 1) / n ≤ 30 := by
      calc 30 * (i + 1) / n ≤ 30 * n / n := Nat.div_le_div_right hmul
        _ = 30 := Nat.mul_div_cancel 30 hn
    have hle : 60 + 30 * (i + 1) / n ≤ 90 := by omega
    exact_mod_cast hle

theorem progress_list_chain (n : Nat) :
    List.Chain' (· ≤ ·)
      (([0, 5, 20, 40, 60] : List Int)
        ++ ((List.range n).map (modelProgress n) ++ [95, 100])) := by
  have hB : ∀ y ∈ (List.range n).map (modelProgress n), 60 ≤ y ∧ y ≤ 90 := by
    intro y hy
    rcases List.mem_map.mp hy with ⟨j, hj, rfl⟩
    exact modelProgress_bounds n j (List.mem_range.mp hj)
  apply List.Pairwise.chain'
  apply List.pairwise_append.mpr
  refine ⟨by decide, ?_, ?_⟩
  · apply List.pairwise_append.mpr
    refine ⟨?_, by decide, ?_⟩
    · exact List.Pairwise.map _
        (fun a b hab => modelProgress_mono n (Nat.le_of_lt hab))
        (List.pairwise_lt_range n)
    · intro x hx y hy
      have h1 := (hB x hx).2
      have h2 : (95 : Int) ≤ y := by
        rcases List.mem_cons.mp hy with rfl | hy2
        · omega
        · rcases List.mem_singleton.mp hy2 with rfl
          omega
      omega
  · intro x hx y hy
    have h1 : x ≤ 60 := by
      simp only [List.mem_cons, List.not_mem_nil, or_false] at hx
      rcases hx with rfl | rfl | rfl | rfl | rfl <;> omega
    rcases List.mem_append.mp hy with h | h
    · have := (hB y h).1; omega
    · have h2 : (95 : Int) ≤ y := by
        rcases List.mem_cons.mp h with rfl | hy2
        · omega
        · rcases List.mem_singleton.mp hy2 with rfl
          omega
      omega

theorem progress_list_bounds (n : Nat) :
    ∀ v ∈ (([0, 5, 20, 40, 60] : List Int)
        ++ ((List.range n).map (modelProgress n) ++ [95, 100])),
      0 ≤ v ∧ v ≤ 100 := by
  intro v hv
  rcases List.mem_append.mp hv with h | h
  · simp only [List.mem_cons, List.not_mem_nil, or_false] at h
    rcases h with rfl | rfl | rfl | rfl | rfl <;> constructor <;> omega
  · rcases List.mem_append.mp h with h2 | h2
    · rcases List.mem_map.mp h2 with ⟨j, hj, rfl⟩
      have := modelProgress_bounds n j (List.mem_range.mp hj)
      omega
    · rcases List.mem_cons.mp h2 with rfl | h3
      · omega
      · rcases List.mem_singleton.mp h3 with rfl
        omega

theorem stages_of_deploy_zero (env : Env) (cfg : Dict)
    (h : (deploy env cfg).2.2 = 0) :
    (check_system_requirements env).2.2 = true ∧ (install_ollama env).2.2 = true ∧
    (start_ollama_service env cfg).2.2 = true ∧ (download_models env cfg).2.2 = true ∧
    (verify_installation env cfg).2.2 = true := by
  cases hb1 : (check_system_requirements env).2.2 with
  | false => rw [deploy_eq_fail1 env cfg hb1] at h; simp at h
  | true =>
  cases hb2 : (install_ollama env).2.2 with
  | false => rw [deploy_eq_fail2 env cfg hb1 hb2] at h; simp at h
  | true =>
  cases hb3 : (start_ollama_service env cfg).2.2 with
  | false => rw [deploy_eq_fail3 env cfg hb1 hb2 hb3] at h; simp at h
  | true =>
  cases hb4 : (download_models env cfg).2.2 with
  | false => rw [deploy_eq_fail4 env cfg hb1 hb2 hb3 hb4] at h; simp at h
  | true =>
  cases hb5 : (verify_installation env cfg).2.2 with
  | false => rw [deploy_eq_fail5 env cfg hb1 hb2 hb3 hb4 hb5] at h; simp at h
  | true => exact ⟨rfl, rfl, rfl, rfl, rfl⟩

theorem progressValues_download_models_ok (env : Env) (cfg : Dict)
    (h : (download_models env cfg).2.2 = true) :
    progressValues (download_models env cfg).1 =
      60 :: (List.range (cfgModels cfg).length).map (modelProgress (cfgModels cfg).length) := by
  have h2 : (downloadLoop env (cfgModels cfg).length 0 (cfgModels cfg)).2.2 = true := h
  unfold download_models
  dsimp only
  simp only [progressValues_append, progressValues_cons_progress, progressValues_nil,
    List.nil_append]
  rw [progressValues_downloadLoop_ok env (cfgModels cfg).length (cfgModels cfg) 0 h2]
  simp [Nat.zero_add]

/-- C8: in every successful run the sequence of progress values emitted is
non-decreasing and every value lies within `[0, 100]`; moreover for a
non-empty model list of length `n`, the per-model value
`int(60 + 30 * (i + 1) / n)` lies within `[60, 90]` for every index `i`. -/
theorem deploy_progress_monotone (env : Env) (cfg : Dict)
    (h : (deploy env cfg).2.2 = 0) :
    List.Chain' (· ≤ ·) (progressValues (deploy env cfg).1) ∧
    (∀ v ∈ progressValues (deploy env cfg).1, 0 ≤ v ∧ v ≤ 100) ∧
    (∀ i, i < (cfgModels cfg).length →
      60 ≤ modelProgress (cfgModels cfg).length i ∧
      modelProgress (cfgModels cfg).length i ≤ 90) := by
  obtain ⟨h1, h2, h3, h4, h5⟩ := stages_of_deploy_zero env cfg h
  have hpv : progressValues (deploy env cfg).1 =
      ([0, 5, 20, 40, 60] : List Int)
        ++ ((List.range (cfgModels cfg).length).map (modelProgress (cfgModels cfg).length)
            ++ [95, 100]) := by
    rw [deploy_eq_of_ok env cfg h1 h2 h3 h4 h5]
    simp [progressValues_download_models_ok env cfg h4]
  refine ⟨?_, ?_, fun i hi => modelProgress_bounds (cfgModels cfg).length i hi⟩
  · rw [hpv]; exact progress_list_chain (cfgModels cfg).length
  · rw [hpv]; exact progress_list_bounds (cfgModels cfg).length

/-- C8 witness: on a cooperative host with two models the run succeeds, its
progress stream is non-decreasing, and the second per-model milestone lies
within `[60, 90]`. -/
theorem deploy_progress_monotone_witness :
    List.Chain' (· ≤ ·) (progressValues (deploy envAllOkW cfg2W).1) ∧
    (60 ≤ modelProgress (cfgModels cfg2W).length 1 ∧
     modelProgress (cfgModels cfg2W).length 1 ≤ 90) := by
  have h := deploy_progress_monotone envAllOkW cfg2W (by decide)
  exact ⟨h.1, h.2.2 1 (by decide)⟩

theorem getLast?_eq_of_concat2 {α : Type} {l pre : List α} {a b : α}
    (h : l = pre ++ [a, b]) : l.getLast? = some b := by
  subst h
  rw [List.getLast?_append_cons]
  rfl

theorem deploy_complete_of_cooperative (env : Env) (cfg : Dict) (out : String)
    (hpy : env.pythonVersion = some out)
    (hrun : ∀ c, (env.run c).returncode = 0)
    (hw : env.writeOk = true) :
    (deploy env cfg).2.2 = 0 ∧
    (deploy env cfg).1.getLast? =
      some (Event.complete true "LLM сервер успешно развернут" cfg) := by
  have h1 := check_system_requirements_ok env out hpy hrun
  have h2 := install_ollama_ok env (hrun "ollama --version")
  have h3 := start_ollama_service_ok env cfg hw hrun
  have h4 := download_models_ok env cfg hrun
  have h5 := verify_installation_ok env cfg hrun
  constructor
  · rw [deploy_eq_of_ok env cfg h1 h2 h3 h4 h5]
  · exact getLast?_eq_of_concat2 (by rw [deploy_eq_of_ok env cfg h1 h2 h3 h4 h5])

/-- C9: with an empty configured models list (and a cooperative host:
interpreter present, every command exiting 0, service unit written), the
model-download stage succeeds without issuing any pull command and emits no
per-model progress (only the fixed milestone 60), and the run ends with the
terminal completion record echoing the resolved empty-models
configuration. -/
theorem deploy_empty_models (env : Env) (cfg : Dict) (out : String)
    (hm : cfgModels cfg = [])
    (hpy : env.pythonVersion = some out)
    (hrun : ∀ c, (env.run c).returncode = 0)
    (hw : env.writeOk = true) :
    (download_models env cfg).2.1 = [] ∧
    (download_models env cfg).2.2 = true ∧
    progressValues (download_models env cfg).1 = [60] ∧
    (deploy env cfg).2.2 = 0 ∧
    (deploy env cfg).1.getLast? =
      some (Event.complete true "LLM сервер успешно развернут" cfg) := by
  have hd := deploy_complete_of_cooperative env cfg out hpy hrun hw
  have hdm : download_models env cfg =
      ([Event.progress 60 "Загрузка моделей LLM"], [], true) := by
    unfold download_models
    rw [hm]
    rfl
  exact ⟨by rw [hdm], by rw [hdm], by rw [hdm]; rfl, hd.1, hd.2⟩

/-- C9 witness: the resolved configuration of the overlay
`\x7b"models": []\x7d` on a fully cooperative host. -/
theorem deploy_empty_models_witness :
    (download_models envAllOkW cfgEmptyModelsW).2.1 = [] ∧
    (download_models envAllOkW cfgEmptyModelsW).2.2 = true ∧
    progressValues (download_models envAllOkW cfgEmptyModelsW).1 = [60] ∧
    (deploy envAllOkW cfgEmptyModelsW).2.2 = 0 ∧
    (deploy envAllOkW cfgEmptyModelsW).1.getLast? =
      some (Event.complete true "LLM сервер успешно развернут" cfgEmptyModelsW) :=
  deploy_empty_models envAllOkW cfgEmptyModelsW "Python 3.10.12\n" rfl rfl
    (fun _ => rfl) rfl

/-- C10: a valid JSON-object configuration file containing a key outside the
six documented default keys keeps that key (with its value) in the resolved
configuration, and the resolved configuration — extra key included — is
echoed verbatim inside the terminal completion record on success. -/
theorem extra_config_keys_preserved (c : Dict) (k : String) (v : Json)
    (hkv : (k, v) ∈ c)
    (hc : (dictKeys c).Nodup)
    (_hextra : k ∉ dictKeys default_config)
    (env : Env) (out : String)
    (hpy : env.pythonVersion = some out)
    (hrun : ∀ cmd, (env.run cmd).returncode = 0)
    (hw : env.writeOk = true) :
    dictLookup (load_config (FileRead.object c)).1 k = some v ∧
    (deploy env (load_config (FileRead.object c)).1).1.getLast? =
      some (Event.complete true "LLM сервер успешно развернут"
        (load_config (FileRead.object c)).1) := by
  constructor
  · have hmem : k ∈ dictKeys c := by
      simpa [dictKeys] using List.mem_map_of_mem Prod.fst hkv
    have h := dictLookup_dictMerge default_config c hc k
    rw [if_pos hmem] at h
    rw [show (load_config (FileRead.object c)).1 = dictMerge default_config c from rfl, h]
    exact dictLookup_eq_of_mem c hc k v hkv
  · exact (deploy_complete_of_cooperative env _ out hpy hrun hw).2

/-- C10 witness: the overlay with the undocumented key `gpu_layers`. -/
theorem extra_config_keys_preserved_witness :
    dictLookup (load_config (FileRead.object
      [("models", Json.arr [Json.str "m1"]), ("gpu_layers", Json.num 35)])).1 "gpu_layers" =
      some (Json.num 35) ∧
    (deploy envAllOkW (load_config (FileRead.object
      [("models", Json.arr [Json.str "m1"]), ("gpu_layers", Json.num 35)])).1).1.getLast? =
      some (Event.complete true "LLM сервер успешно развернут"
        (load_config (FileRead.object
          [("models", Json.arr [Json.str "m1"]), ("gpu_layers", Json.num 35)])).1) :=
  extra_config_keys_preserved
    [("models", Json.arr [Json.str "m1"]), ("gpu_layers", Json.num 35)]
    "gpu_layers" (Json.num 35)
    (List.mem_cons_of_mem _ (List.mem_cons_self _ _))
    (by decide) (by decide)
    envAllOkW "Python 3.10.12\n" rfl (fun _ => rfl) rfl
